import Mathlib

/-!
Verification of the LegalEase document-analysis client and its
retrieval-augmented analysis pipeline.

The frontend service layer (src/frontend/src/app/lib/services/legalAiService.ts,
src/frontend/src/app/lib/types/api.ts, src/frontend/src/app/document/[id]/page.tsx)
is embedded shallowly below: fetch requests become explicit Request values,
HTTP responses become Response values, JavaScript objects become a Json model,
and JavaScript truthiness is made explicit.  The backend chunker and retriever
are not part of the shipped sources; they are modelled from the specification
where noted.
-/

namespace LegalEase

/-- Model of a JavaScript/JSON runtime value. The undefined constructor models
the JavaScript undefined value (the result of reading a missing field). -/
inductive Json where
  | null
  | undefined
  | bool (b : Bool)
  | num (n : Int)
  | str (s : String)
  | arr (elems : List Json)
  | obj (fields : List (String × Json))
deriving Repr

/-- Field lookup on an object: some value when the key is declared, none
otherwise (and on non-objects). -/
def Json.lookup : Json → String → Option Json
  | .obj fields, k => fields.lookup k
  | _, _ => none

/-- Property read, as in JavaScript obj?.k: a missing key or a non-object
receiver yields undefined. -/
def Json.get (j : Json) (k : String) : Json :=
  match j.lookup k with
  | some v => v
  | none => .undefined

/-- The list of field names of an object value. -/
def Json.keys : Json → List String
  | .obj fields => fields.map Prod.fst
  | _ => []

/-- JavaScript truthiness: null, undefined, false, 0 and the empty string
are falsy; every other value is truthy. -/
def jsTruthy : Json → Bool
  | .null => false
  | .undefined => false
  | .bool b => b
  | .num n => n != 0
  | .str s => s != ""
  | .arr _ => true
  | .obj _ => true

/-- The JavaScript logical-or operator over runtime values. -/
def jsOr (a b : Json) : Json := if jsTruthy a then a else b

/-- Plain JavaScript member access obj.k: reading a property of null or of
undefined throws a TypeError, modelled by none; any other receiver yields
the declared property value or undefined. -/
def Json.member : Json → String → Option Json
  | .null, _ => none
  | .undefined, _ => none
  | j, k => some (j.get k)

/-- Whether a value is null or undefined, the two values the Array join
underlying the JavaScript array-to-string coercion renders as empty. -/
def isNullish : Json → Bool
  | .null => true
  | .undefined => true
  | _ => false

/-- JavaScript string coercion, as applied by the Error constructor to its
message argument; an array coerces as its join by commas, whose null and
undefined elements render as empty strings. -/
def jsStringCoerce : Json → String
  | .null => "null"
  | .undefined => "undefined"
  | .bool true => "true"
  | .bool false => "false"
  | .num n => toString n
  | .str s => s
  | .arr xs => String.intercalate "," (xs.attach.map fun x =>
      if isNullish x.1 then "" else jsStringCoerce x.1)
  | .obj _ => "[object Object]"
decreasing_by
  have h := List.sizeOf_lt_of_mem x.2
  simp only [Json.arr.sizeOf_spec]
  omega

/-- The body attached to an outgoing fetch call. -/
inductive RequestBody where
  | empty
  | json (j : Json)
  | formData (fields : List (String × String))
deriving Repr

/-- An outgoing HTTP request as built by the service layer. -/
structure Request where
  url : String
  method : String
  body : RequestBody
deriving Repr

/-- An incoming HTTP response; body is none when the body is not valid JSON
(so that response.json() rejects). -/
structure Response where
  ok : Bool
  status : Nat
  body : Option Json

/-- Outcome of a service call: a success value, a thrown ApiError carrying
the HTTP status and a message, a JSON parse failure on an ok response, or
a thrown TypeError (reading a property of a null or undefined value). -/
inductive FetchOutcome (α : Type) where
  | success (value : α)
  | apiError (status : Nat) (message : String)
  | jsonError
  | typeError
deriving Repr

/-- JavaScript or-with-default over an optional environment string, as in
process.env.NEXT_PUBLIC_API_URL or the literal fallback. -/
def jsOrString (envVar : Option String) (fallback : String) : String :=
  match envVar with
  | some s => if s = "" then fallback else s
  | none => fallback

/-- API base url from legalAiService.ts. -/
def API_BASE_URL (env : Option String) : String :=
  jsOrString env "http://localhost:8000/api/legalai"

/-- handleResponse from legalAiService.ts: on a non-ok response, parse the
body (falling back to a detail of Unknown error when it is not JSON), read
errorData.detail by plain member access (a TypeError when the parsed body
is null) and throw ApiError(status, errorData.detail or Request failed);
on an ok response return the parsed JSON body. -/
def handleResponse (response : Response) : FetchOutcome Json :=
  if response.ok = false then
    let errorData : Json :=
      match response.body with
      | some j => j
      | none => Json.obj [("detail", Json.str "Unknown error")]
    match errorData.member "detail" with
    | none => FetchOutcome.typeError
    | some d =>
        FetchOutcome.apiError response.status
          (jsStringCoerce (jsOr d (Json.str "Request failed")))
  else
    match response.body with
    | some j => FetchOutcome.success j
    | none => FetchOutcome.jsonError

/-- AnalysisResponse from api.ts: analysis_type, document_id, timestamp,
context_chunks_used, result (the typed payload, a loose record) and an
optional error field. -/
structure AnalysisResponse where
  analysis_type : String
  document_id : String
  timestamp : String
  context_chunks_used : Int
  result : Json
  error : Option String
deriving Repr

/-- Serialization of an AnalysisResponse, in the declared field order; the
error field is emitted only when present. -/
def AnalysisResponse.toJson (r : AnalysisResponse) : Json :=
  Json.obj ([("analysis_type", Json.str r.analysis_type),
             ("document_id", Json.str r.document_id),
             ("timestamp", Json.str r.timestamp),
             ("context_chunks_used", Json.num r.context_chunks_used),
             ("result", r.result)] ++
            (match r.error with
             | some e => [("error", Json.str e)]
             | none => []))

/-- DocumentUploadResponse from api.ts: success, optional document_id,
message, optional statistics, optional error. -/
structure DocumentUploadResponse where
  success : Bool
  document_id : Option String
  message : String
  statistics : Option Json
  error : Option String
deriving Repr

/-- An optional field of a serialized object. -/
def optField (k : String) : Option Json → List (String × Json)
  | some v => [(k, v)]
  | none => []

/-- Serialization of a DocumentUploadResponse in the declared field order. -/
def DocumentUploadResponse.toJson (r : DocumentUploadResponse) : Json :=
  Json.obj ([("success", Json.bool r.success)] ++
            optField "document_id" (r.document_id.map Json.str) ++
            [("message", Json.str r.message)] ++
            optField "statistics" r.statistics ++
            optField "error" (r.error.map Json.str))

/-- ChatRequest from api.ts: document_id and question. -/
structure ChatRequest where
  document_id : String
  question : String
deriving Repr, DecidableEq

/-- JSON.stringify of a ChatRequest, in the declared field order. -/
def ChatRequest.toJson (r : ChatRequest) : Json :=
  Json.obj [("document_id", Json.str r.document_id),
            ("question", Json.str r.question)]

/-- ChatResponse from api.ts: answer, context_used, sources (declared as a
list of unknown values), document_id, timestamp. -/
structure ChatResponse where
  answer : String
  context_used : Int
  sources : List Json
  document_id : String
  timestamp : String
deriving Repr

/-- Decoder for the declared ChatResponse shape. -/
def ChatResponse.fromJson (j : Json) : Option ChatResponse :=
  match j.lookup "answer", j.lookup "context_used", j.lookup "sources",
        j.lookup "document_id", j.lookup "timestamp" with
  | some (.str a), some (.num c), some (.arr ss), some (.str d), some (.str ts) =>
      some { answer := a, context_used := c, sources := ss,
             document_id := d, timestamp := ts }
  | _, _, _, _, _ => none

/-- Modelled from the spec: the shape of one element of the sources list of
a chat response, text, page and section. The backend that produces it is
not under src/; the frontend type declares the elements only as unknown. -/
structure ChatSource where
  text : String
  page : Int
  «section» : String
deriving Repr, DecidableEq

/-- Serialization of a ChatSource with exactly the three declared fields. -/
def ChatSource.toJson (s : ChatSource) : Json :=
  Json.obj [("text", Json.str s.text),
            ("page", Json.num s.page),
            ("section", Json.str s.«section»)]

/-- Modelled from the spec: a successful response of POST /documents/chat,
answer, context_used, sources, document_id and timestamp, with each source
carrying text, page and section. The backend producing it is not under
src/. -/
def chatResponseJson (answer : String) (context_used : Int)
    (sources : List ChatSource) (document_id timestamp : String) : Json :=
  Json.obj [("answer", Json.str answer),
            ("context_used", Json.num context_used),
            ("sources", Json.arr (sources.map ChatSource.toJson)),
            ("document_id", Json.str document_id),
            ("timestamp", Json.str timestamp)]

/-- DocumentStatusResponse from api.ts: exists, optional document_id,
optional statistics, optional chunks_count, optional message, optional
error. -/
structure DocumentStatusResponse where
  «exists» : Bool
  document_id : Option String
  statistics : Option Json
  chunks_count : Option Int
  message : Option String
  error : Option String
deriving Repr

/-- Serialization of a DocumentStatusResponse in the declared field order. -/
def DocumentStatusResponse.toJson (r : DocumentStatusResponse) : Json :=
  Json.obj ([("exists", Json.bool r.«exists»)] ++
            optField "document_id" (r.document_id.map Json.str) ++
            optField "statistics" r.statistics ++
            optField "chunks_count" (r.chunks_count.map Json.num) ++
            optField "message" (r.message.map Json.str) ++
            optField "error" (r.error.map Json.str))

/-- Decoder for the declared DocumentStatusResponse shape: exists is
required, every other field is optional. -/
def DocumentStatusResponse.fromJson (j : Json) : Option DocumentStatusResponse :=
  match j.lookup "exists" with
  | some (.bool b) =>
      some { «exists» := b,
             document_id :=
               match j.lookup "document_id" with
               | some (.str s) => some s
               | _ => none,
             statistics := j.lookup "statistics",
             chunks_count :=
               match j.lookup "chunks_count" with
               | some (.num n) => some n
               | _ => none,
             message :=
               match j.lookup "message" with
               | some (.str s) => some s
               | _ => none,
             error :=
               match j.lookup "error" with
               | some (.str s) => some s
               | _ => none }
  | _ => none

/-- uploadDocument from legalAiService.ts: POST multipart form data (the
file plus, when a non-empty documentId is supplied, a document_id field) to
the upload/supabase-first endpoint. -/
def legalAiService.uploadDocument (env : Option String) (file : String)
    (documentId : Option String) : Request :=
  { url := API_BASE_URL env ++ "/upload/supabase-first"
  , method := "POST"
  , body := RequestBody.formData
      ([("file", file)] ++
       (match documentId with
        | some d => if d = "" then [] else [("document_id", d)]
        | none => [])) }

/-- A GET request for one analysis endpoint of a document. -/
def analysisRequest (env : Option String) (documentId suffix : String) : Request :=
  { url := API_BASE_URL env ++ "/documents/" ++ documentId ++ "/" ++ suffix
  , method := "GET"
  , body := RequestBody.empty }

/-- getDocumentSummary from legalAiService.ts. -/
def legalAiService.getDocumentSummary (env : Option String) (documentId : String) : Request :=
  analysisRequest env documentId "summary"

/-- getImportantClauses from legalAiService.ts. -/
def legalAiService.getImportantClauses (env : Option String) (documentId : String) : Request :=
  analysisRequest env documentId "clauses"

/-- getImportantDates from legalAiService.ts. -/
def legalAiService.getImportantDates (env : Option String) (documentId : String) : Request :=
  analysisRequest env documentId "dates"

/-- getAttentionPoints from legalAiService.ts. -/
def legalAiService.getAttentionPoints (env : Option String) (documentId : String) : Request :=
  analysisRequest env documentId "risks"

/-- getKeyEntities from legalAiService.ts. -/
def legalAiService.getKeyEntities (env : Option String) (documentId : String) : Request :=
  analysisRequest env documentId "entities"

/-- getDetailedBreakdown from legalAiService.ts. -/
def legalAiService.getDetailedBreakdown (env : Option String) (documentId : String) : Request :=
  analysisRequest env documentId "breakdown"

/-- getMindMap from legalAiService.ts. -/
def legalAiService.getMindMap (env : Option String) (documentId : String) : Request :=
  analysisRequest env documentId "mindmap"

/-- chatWithDocument from legalAiService.ts: POST the serialized ChatRequest
to the documents/chat endpoint. -/
def legalAiService.chatWithDocument (env : Option String) (chatRequest : ChatRequest) : Request :=
  { url := API_BASE_URL env ++ "/documents/chat"
  , method := "POST"
  , body := RequestBody.json (ChatRequest.toJson chatRequest) }

/-- getDocumentStatus from legalAiService.ts. -/
def legalAiService.getDocumentStatus (env : Option String) (documentId : String) : Request :=
  { url := API_BASE_URL env ++ "/documents/" ++ documentId ++ "/status"
  , method := "GET"
  , body := RequestBody.empty }

/-- The seven analysis types of the analysis endpoints. -/
def analysisTypes : List String :=
  ["summary", "clauses", "dates", "risks", "entities", "breakdown", "mindmap"]

/-- The service getter of a given analysis type. -/
def analysisGetterFor (t : String) : Option (Option String → String → Request) :=
  match t with
  | "summary" => some legalAiService.getDocumentSummary
  | "clauses" => some legalAiService.getImportantClauses
  | "dates" => some legalAiService.getImportantDates
  | "risks" => some legalAiService.getAttentionPoints
  | "entities" => some legalAiService.getKeyEntities
  | "breakdown" => some legalAiService.getDetailedBreakdown
  | "mindmap" => some legalAiService.getMindMap
  | _ => none

/-- Per-page state of the document page: the sectionData record. Updating
a key is modelled by prepending, and List.lookup reads the most recent
binding, matching the object-spread update of the source. -/
structure PageState where
  sectionData : List (String × Json)
deriving Repr

/-- The backend suffix fetched for a section tab by fetchSectionData in
page.tsx; the locations tab is served by the entities endpoint, and an
unknown section returns without fetching. -/
def sectionEndpointSuffix (sec : String) : Option String :=
  match sec with
  | "clauses" => some "clauses"
  | "dates" => some "dates"
  | "locations" => some "entities"
  | "breakdown" => some "breakdown"
  | "risks" => some "risks"
  | "mindmap" => some "mindmap"
  | _ => none

/-- fetchSectionData from page.tsx: return immediately when the section
already has a truthy cached value; otherwise issue the section request and
store its result field, read by plain member access (so a call resolving
to JSON null throws a TypeError, caught like every non-ApiError failure
and stored as the Failed to load data record). The second component lists
the backend requests issued by the call. -/
def fetchSectionData (env : Option String) (backend : Request → Response)
    (state : PageState) (sec documentId : String) : PageState × List Request :=
  match state.sectionData.lookup sec with
  | some v =>
      if jsTruthy v then (state, [])
      else fetchSectionMiss env backend state sec documentId
  | none => fetchSectionMiss env backend state sec documentId
where
  /-- The cache-miss path of fetchSectionData. -/
  fetchSectionMiss (env : Option String) (backend : Request → Response)
      (state : PageState) (sec documentId : String) : PageState × List Request :=
    match sectionEndpointSuffix sec with
    | none => (state, [])
    | some sfx =>
        let req := analysisRequest env documentId sfx
        let stored : Json :=
          match handleResponse (backend req) with
          | FetchOutcome.success j =>
              match j.member "result" with
              | some v => v
              | none => Json.obj [("error", Json.str "Failed to load data")]
          | FetchOutcome.apiError _ msg => Json.obj [("error", Json.str msg)]
          | FetchOutcome.jsonError => Json.obj [("error", Json.str "Failed to load data")]
          | FetchOutcome.typeError => Json.obj [("error", Json.str "Failed to load data")]
        ({ sectionData := (sec, stored) :: state.sectionData }, [req])

/-- The JavaScript String trim method: whitespace stripped from both
ends. -/
def jsTrim (s : String) : String :=
  String.mk (((s.data.dropWhile Char.isWhitespace).reverse.dropWhile
    Char.isWhitespace).reverse)

/-- handleSendMessage from page.tsx, reduced to the backend requests it
issues: nothing when the trimmed message is empty or the document id is
missing, otherwise exactly one chat request for the current message. The
chat history takes no part in deciding whether a request is sent. -/
def handleSendMessage (env : Option String) (docId : Option String)
    (chatMessages : List String) (newMessage : String) : List Request :=
  if jsTrim newMessage = "" then []
  else
    match docId with
    | none => []
    | some d => [legalAiService.chatWithDocument env { document_id := d, question := newMessage }]

/-- The overview summary computed by fetchDocument in page.tsx:
result?.summary, else result?.content, else the literal fallback, combined
with the JavaScript or operator. -/
def overviewSummary (result : Json) : Json :=
  jsOr (jsOr (result.get "summary") (result.get "content"))
    (Json.str "No summary available")

/-- The summary selection as the claim words it: the summary field whenever
it is present, else the content field whenever present, else the literal
fallback. Stated from the claim for comparison with overviewSummary. -/
def claimedOverviewSummary (result : Json) : Json :=
  match result.lookup "summary" with
  | some v => v
  | none =>
      match result.lookup "content" with
      | some v => v
      | none => Json.str "No summary available"

/-- The error message of a failed call as the claim words it: the detail
field of the body whenever the body is JSON and declares it, with the two
fallbacks for a non-JSON body and a missing detail. Stated from the claim
for comparison with handleResponse. -/
def claimedErrorMessage (body : Option Json) : String :=
  match body with
  | none => "Unknown error"
  | some j =>
      match j.lookup "detail" with
      | some d => jsStringCoerce d
      | none => "Request failed"

/-- Modelled from the spec: a persisted vector record of the VectorIndex,
document_id, chunk id, chunk sequence index and embedding vector. The
backend index code is not under src/. Embeddings are integer-scaled so that
the dot product of stored (normalized) vectors plays the role of cosine
similarity. -/
structure VectorRecord where
  document_id : String
  chunk_id : Nat
  seq : Nat
  embedding : List Int
deriving Repr, DecidableEq

/-- Dot product of two embedding vectors. -/
def dot (v w : List Int) : Int := (List.zipWith (fun a b => a * b) v w).sum

/-- Similarity score of a record against a query vector. -/
def score (qv : List Int) (r : VectorRecord) : Int := dot qv r.embedding

/-- Modelled from the spec: the retrieval ranking, descending by similarity
score with ties broken by chunk sequence index, earlier chunk first. -/
def rankRel (qv : List Int) (a b : VectorRecord) : Prop :=
  score qv b < score qv a ∨ (score qv a = score qv b ∧ a.seq ≤ b.seq)

instance (qv : List Int) : DecidableRel (rankRel qv) := fun a b =>
  inferInstanceAs (Decidable (_ ∨ _))

instance (qv : List Int) : IsTotal VectorRecord (rankRel qv) :=
  ⟨by
    intro a b
    unfold rankRel
    omega⟩

instance (qv : List Int) : IsTrans VectorRecord (rankRel qv) :=
  ⟨by
    intro a b c hab hbc
    unfold rankRel at hab hbc ⊢
    omega⟩

/-- Modelled from the spec: the records retrieve ranks, the index filtered
to the queried document and sorted by descending similarity of the embedded
query, ties broken by sequence index. The backend retriever code is not
under src/; the embedder is any fixed deterministic function of the text. -/
def retrieveRecords (emb : String → List Int) (index : List VectorRecord)
    (documentId query : String) : List VectorRecord :=
  List.insertionSort (rankRel (emb query))
    (index.filter (fun r => r.document_id == documentId))

/-- Modelled from the spec: retrieve returns the chunk ids of the top k
ranked records. -/
def retrieve (emb : String → List Int) (index : List VectorRecord)
    (documentId query : String) (k : Nat) : List Nat :=
  ((retrieveRecords emb index documentId query).take k).map (fun r => r.chunk_id)

/-- Modelled from the spec: the chunking configuration, target chunk size
in characters, overlap size and the bounded boundary-search window. The
backend chunker code is not under src/; the README defaults are 1000 and
200. -/
structure ChunkConfig where
  target_size : Nat
  overlap : Nat
  boundary_search_window : Nat
deriving Repr, DecidableEq

/-- A chunk: sequence index, character offsets into the source text and the
text slice itself. -/
structure Chunk where
  seq : Nat
  startOff : Nat
  endOff : Nat
  text : List Char
deriving Repr, DecidableEq

/-- Sentence-ending punctuation or newline, the preferred break points. -/
def isBoundaryChar (c : Char) : Bool :=
  c = '.' || c = '!' || c = '?' || c = '\n'

/-- Whether position p of the source holds a boundary character. -/
def isBoundaryAt (src : List Char) (p : Nat) : Bool :=
  match src.get? p with
  | some c => isBoundaryChar c
  | none => false

/-- Backward search for the nearest boundary character, examining count
positions from p downward. -/
def findBoundaryBack (src : List Char) : Nat → Nat → Option Nat
  | 0, _ => none
  | count + 1, p =>
      if isBoundaryAt src p then some p
      else
        match p with
        | 0 => none
        | q + 1 => findBoundaryBack src count q

/-- One chunk value over the source text. -/
def mkChunk (src : List Char) (seq a b : Nat) : Chunk :=
  { seq := seq, startOff := a, endOff := b, text := (src.drop a).take (b - a) }

/-- The cut position of a non-final chunk starting at start: just after the
nearest boundary character found within the search window below the hard
limit start + target_size, or the hard limit itself when the window (which
never reaches back past the chunk start) holds no boundary character. -/
def cutPoint (cfg : ChunkConfig) (src : List Char) (start : Nat) : Nat :=
  match findBoundaryBack src (min cfg.boundary_search_window cfg.target_size)
      (start + cfg.target_size - 1) with
  | some p => p + 1
  | none => start + cfg.target_size

/-- Modelled from the spec: the chunking loop. Scan forward to the target
size; search backward within the window (clamped to the chunk start) for
the nearest boundary character and cut just after it, or cut at the hard
limit when none is found; the next chunk starts overlap characters before
the previous end. Text shorter than the target yields a single final
chunk; the fuel argument bounds the loop and src.length + 1 steps suffice
for any configuration that makes progress. -/
def chunkAux (cfg : ChunkConfig) (src : List Char) (start seq : Nat) : Nat → List Chunk
  | 0 => []
  | fuel + 1 =>
      if start < src.length then
        if src.length - start ≤ cfg.target_size then
          [mkChunk src seq start src.length]
        else
          mkChunk src seq start (cutPoint cfg src start) ::
            chunkAux cfg src (cutPoint cfg src start - cfg.overlap) (seq + 1) fuel
      else []

/-- Modelled from the spec: chunk of the Chunker, the ordered sequence of
chunks of the source text. -/
def chunk (cfg : ChunkConfig) (text : List Char) : List Chunk :=
  chunkAux cfg text 0 0 (text.length + 1)

/-!
Theorems about the embedded program.
-/

/-- Claim C1: every analysis result returned to the caller, for each of the
seven analysis types, is served by a GET request of that type and is a
record with exactly the fields analysis_type, document_id, timestamp,
context_chunks_used (the count of context chunks used), result (the typed
payload) and an optional error field. -/
theorem analysis_result_fields (env : Option String) (docId t : String)
    (ht : t ∈ analysisTypes) (r : AnalysisResponse) :
    (∃ g, analysisGetterFor t = some g ∧
       g env docId =
         { url := API_BASE_URL env ++ "/documents/" ++ docId ++ "/" ++ t
         , method := "GET", body := RequestBody.empty }) ∧
    Json.keys (AnalysisResponse.toJson r) =
      ["analysis_type", "document_id", "timestamp", "context_chunks_used", "result"] ++
        (if r.error.isSome then ["error"] else []) := by
  constructor
  · simp only [analysisTypes, List.mem_cons, List.mem_singleton, List.not_mem_nil, or_false] at ht
    rcases ht with h | h | h | h | h | h | h <;> subst h <;> exact ⟨_, rfl, rfl⟩
  · cases he : r.error <;>
      simp [AnalysisResponse.toJson, Json.keys, he]

/-- Claim C1 witness: the theorem applied to the summary analysis type and
a concrete error-free response record. -/
theorem analysis_result_fields_witness :
    (∃ g, analysisGetterFor "summary" = some g ∧
       g none "doc1" =
         { url := API_BASE_URL none ++ "/documents/" ++ "doc1" ++ "/" ++ "summary"
         , method := "GET", body := RequestBody.empty }) ∧
    Json.keys (AnalysisResponse.toJson
        { analysis_type := "summary", document_id := "doc1", timestamp := "t0"
        , context_chunks_used := 5, result := Json.obj [], error := none }) =
      ["analysis_type", "document_id", "timestamp", "context_chunks_used", "result"] :=
  analysis_result_fields none "doc1" "summary" (by simp [analysisTypes])
    { analysis_type := "summary", document_id := "doc1", timestamp := "t0"
    , context_chunks_used := 5, result := Json.obj [], error := none }

/-- Claim C2: a chat call POSTs to the documents/chat endpoint a body that
is exactly the record with fields document_id and question, and a
successful chat response decodes to an answer string, a context_used count
and a sources list each of whose elements carries exactly text, page and
section. -/
theorem chat_contract (env : Option String) (req : ChatRequest)
    (answer : String) (ctx : Int) (sources : List ChatSource) (docId ts : String) :
    legalAiService.chatWithDocument env req =
      { url := API_BASE_URL env ++ "/documents/chat", method := "POST"
      , body := RequestBody.json (ChatRequest.toJson req) } ∧
    Json.keys (ChatRequest.toJson req) = ["document_id", "question"] ∧
    ChatResponse.fromJson (chatResponseJson answer ctx sources docId ts) =
      some { answer := answer, context_used := ctx
           , sources := sources.map ChatSource.toJson
           , document_id := docId, timestamp := ts } ∧
    ∀ s ∈ sources, Json.keys (ChatSource.toJson s) = ["text", "page", "section"] := by
  refine ⟨rfl, rfl, rfl, ?_⟩
  intro s _
  rfl

/-- Claim C3 counterexample: ingest is not a POST to a documents endpoint,
and the upload response has no chunk_count field; the request built by
uploadDocument targets upload/supabase-first, and a fully populated
DocumentUploadResponse serializes to exactly success, document_id, message,
statistics and error. -/
theorem upload_endpoint_counterexample :
    (legalAiService.uploadDocument none "contract.pdf" none).url =
      "http://localhost:8000/api/legalai/upload/supabase-first" ∧
    (legalAiService.uploadDocument none "contract.pdf" none).url ≠
      "http://localhost:8000/api/legalai/documents" ∧
    Json.keys (DocumentUploadResponse.toJson
        { success := true, document_id := some "doc1", message := "uploaded"
        , statistics := some (Json.obj []), error := some "e" }) =
      ["success", "document_id", "message", "statistics", "error"] ∧
    "chunk_count" ∉ Json.keys (DocumentUploadResponse.toJson
        { success := true, document_id := some "doc1", message := "uploaded"
        , statistics := some (Json.obj []), error := some "e" }) := by
  refine ⟨rfl, by decide, rfl, by decide⟩

/-- Claim C3 amended: document ingest is performed by a POST of multipart
form data (the file plus, when provided and non-empty, a document_id) to
the upload/supabase-first endpoint, and the response is a
DocumentUploadResponse with a success flag, a message, and optional
document_id, statistics and error fields, with no chunk_count field. -/
theorem upload_contract (env : Option String) (file : String)
    (documentId : Option String) (r : DocumentUploadResponse) :
    (legalAiService.uploadDocument env file documentId).method = "POST" ∧
    (legalAiService.uploadDocument env file documentId).url =
      API_BASE_URL env ++ "/upload/supabase-first" ∧
    (∃ fields, (legalAiService.uploadDocument env file documentId).body =
        RequestBody.formData fields ∧ fields.lookup "file" = some file) ∧
    Json.keys (DocumentUploadResponse.toJson r) =
      ["success"] ++ (if r.document_id.isSome then ["document_id"] else []) ++
      ["message"] ++ (if r.statistics.isSome then ["statistics"] else []) ++
      (if r.error.isSome then ["error"] else []) ∧
    "chunk_count" ∉ Json.keys (DocumentUploadResponse.toJson r) := by
  refine ⟨rfl, rfl, ⟨_, rfl, by simp [List.lookup]⟩, ?_, ?_⟩
  · obtain ⟨s, did, msg, stats, err⟩ := r
    cases did <;> cases stats <;> cases err <;>
      simp [DocumentUploadResponse.toJson, optField, Json.keys]
  · obtain ⟨s, did, msg, stats, err⟩ := r
    cases did <;> cases stats <;> cases err <;>
      simp [DocumentUploadResponse.toJson, optField, Json.keys]

/-- Claim C4 counterexample: the status record declares an optional field
named chunks_count, not a field named chunk_count; a fully populated
DocumentStatusResponse serializes without any chunk_count key, and a
backend reply carrying the claimed chunk_count key decodes with
chunks_count unset. -/
theorem status_field_counterexample :
    Json.keys (DocumentStatusResponse.toJson
        { «exists» := true, document_id := some "doc1"
        , statistics := some (Json.obj []), chunks_count := some 5
        , message := some "m", error := some "e" }) =
      ["exists", "document_id", "statistics", "chunks_count", "message", "error"] ∧
    "chunk_count" ∉ Json.keys (DocumentStatusResponse.toJson
        { «exists» := true, document_id := some "doc1"
        , statistics := some (Json.obj []), chunks_count := some 5
        , message := some "m", error := some "e" }) ∧
    DocumentStatusResponse.fromJson
        (Json.obj [("exists", Json.bool true), ("chunk_count", Json.num 5)]) =
      some { «exists» := true, document_id := none, statistics := none
           , chunks_count := none, message := none, error := none } := by
  refine ⟨rfl, by decide, rfl⟩

/-- Claim C4 amended: GET documents/id/status returns a
DocumentStatusResponse that always contains an exists flag and optionally
contains a chunks_count field (so named), along with optional document_id,
statistics, message and error fields. -/
theorem status_contract (env : Option String) (documentId : String)
    (r : DocumentStatusResponse) :
    (legalAiService.getDocumentStatus env documentId).method = "GET" ∧
    (legalAiService.getDocumentStatus env documentId).url =
      API_BASE_URL env ++ "/documents/" ++ documentId ++ "/status" ∧
    Json.keys (DocumentStatusResponse.toJson r) =
      ["exists"] ++ (if r.document_id.isSome then ["document_id"] else []) ++
      (if r.statistics.isSome then ["statistics"] else []) ++
      (if r.chunks_count.isSome then ["chunks_count"] else []) ++
      (if r.message.isSome then ["message"] else []) ++
      (if r.error.isSome then ["error"] else []) ∧
    "exists" ∈ Json.keys (DocumentStatusResponse.toJson r) ∧
    "chunk_count" ∉ Json.keys (DocumentStatusResponse.toJson r) := by
  obtain ⟨ex, did, stats, cc, msg, err⟩ := r
  refine ⟨rfl, rfl, ?_, ?_, ?_⟩ <;>
    cases did <;> cases stats <;> cases cc <;> cases msg <;> cases err <;>
      simp [DocumentStatusResponse.toJson, optField, Json.keys]

/-- Claim C9 counterexample: a failed response whose JSON body carries an
empty-string detail field produces the Request failed fallback, not the
detail field itself as the claim reads; and a failed response whose body is
the JSON text null throws a TypeError from the detail read, so no ApiError
reaches the caller at all. -/
theorem handle_response_detail_counterexample :
    handleResponse
        { ok := false, status := 500
        , body := some (Json.obj [("detail", Json.str "")]) } =
      FetchOutcome.apiError 500 "Request failed" ∧
    claimedErrorMessage (some (Json.obj [("detail", Json.str "")])) = "" ∧
    ("Request failed" : String) ≠ "" ∧
    handleResponse { ok := false, status := 500, body := some Json.null } =
      FetchOutcome.typeError ∧
    (FetchOutcome.typeError : FetchOutcome Json) ≠
      FetchOutcome.apiError 500 "Request failed" := by
  refine ⟨?_, ?_, by decide, rfl, ?_⟩
  · simp [handleResponse, Json.member, jsOr, jsTruthy, Json.get, Json.lookup, jsStringCoerce]
  · simp [claimedErrorMessage, Json.lookup, jsStringCoerce]
  · intro h
    exact FetchOutcome.noConfusion h

/-- Claim C9 amended: for every service call with a non-ok HTTP response,
when the body is not JSON the call throws ApiError(status, Unknown error);
when the body is the JSON value null (or undefined) the plain detail read
throws a TypeError, so no ApiError reaches the caller; for any other JSON
body the call throws an ApiError whose status is the HTTP status and whose
message is the string coercion of the detail field when that field is
declared and truthy, and the fallback Request failed when it is missing or
falsy; a value is returned only when the response is ok. -/
theorem handle_response_spec (r : Response) :
    (∀ v, handleResponse r = FetchOutcome.success v → r.ok = true) ∧
    (r.ok = false →
      handleResponse r =
        match r.body with
        | none => FetchOutcome.apiError r.status "Unknown error"
        | some Json.null => FetchOutcome.typeError
        | some Json.undefined => FetchOutcome.typeError
        | some body =>
            FetchOutcome.apiError r.status
              (match body.lookup "detail" with
               | some d => if jsTruthy d then jsStringCoerce d else "Request failed"
               | none => "Request failed")) := by
  obtain ⟨ok, status, body⟩ := r
  cases ok
  · refine ⟨?_, ?_⟩
    · intro v hv
      simp [handleResponse] at hv
      split at hv <;> exact FetchOutcome.noConfusion hv
    · intro _
      cases body with
      | none =>
          simp [handleResponse, Json.member, Json.get, Json.lookup, jsOr, jsTruthy,
            jsStringCoerce]
      | some j =>
        cases j with
        | null => rfl
        | undefined => rfl
        | bool b =>
            simp [handleResponse, Json.member, Json.get, Json.lookup, jsOr, jsTruthy,
              jsStringCoerce]
        | num n =>
            simp [handleResponse, Json.member, Json.get, Json.lookup, jsOr, jsTruthy,
              jsStringCoerce]
        | str s =>
            simp [handleResponse, Json.member, Json.get, Json.lookup, jsOr, jsTruthy,
              jsStringCoerce]
        | arr xs =>
            simp [handleResponse, Json.member, Json.get, Json.lookup, jsOr, jsTruthy,
              jsStringCoerce]
        | obj fields =>
            simp only [handleResponse, Json.member, Json.get]
            cases hj : Json.lookup (Json.obj fields) "detail" with
            | none => simp [hj, jsOr, jsTruthy, jsStringCoerce]
            | some d =>
              simp only [hj, jsOr]
              by_cases hd : jsTruthy d = true
              · simp [hd]
              · simp [hd, jsStringCoerce]
  · refine ⟨fun v _ => rfl, fun h => absurd h (by simp)⟩

/-- Claim C9 witness: the theorem applied to a failed response with a
non-JSON body, evaluating to the Unknown error fallback. -/
theorem handle_response_spec_witness :
    handleResponse { ok := false, status := 404, body := none } =
      FetchOutcome.apiError 404 "Unknown error" :=
  (handle_response_spec { ok := false, status := 404, body := none }).2 rfl

/-- Claim C10 counterexample: a payload whose summary field is present but
empty is displayed using the content field, not the summary field as the
claim reads. -/
theorem overview_summary_counterexample :
    overviewSummary
        (Json.obj [("summary", Json.str ""), ("content", Json.str "Contract overview.")]) =
      Json.str "Contract overview." ∧
    claimedOverviewSummary
        (Json.obj [("summary", Json.str ""), ("content", Json.str "Contract overview.")]) =
      Json.str "" ∧
    Json.str "Contract overview." ≠ Json.str "" := by
  refine ⟨rfl, rfl, by simp⟩

/-- Claim C10 amended: the displayed overview summary is the summary field
of the payload when that field is truthy (present and non-empty), otherwise
the content field when truthy, otherwise the literal No summary available;
in particular the displayed summary is never the empty string. -/
theorem overview_summary_spec (result : Json) :
    overviewSummary result =
      (if jsTruthy (result.get "summary") then result.get "summary"
       else if jsTruthy (result.get "content") then result.get "content"
       else Json.str "No summary available") ∧
    overviewSummary result ≠ Json.str "" := by
  constructor
  · unfold overviewSummary jsOr
    by_cases h1 : jsTruthy (result.get "summary") = true
    · simp [h1]
    · by_cases h2 : jsTruthy (result.get "content") = true <;> simp [h1, h2]
  · unfold overviewSummary
    generalize jsOr (result.get "summary") (result.get "content") = x
    unfold jsOr
    split
    next h =>
      intro he
      rw [he] at h
      simp [jsTruthy] at h
    next => simp

/-- Claim C5: a section request whose cached entry is already populated
(with a truthy value) issues no backend request and leaves the cache, and
hence the result the page renders, unchanged; repeating the same request
for the same document page is idempotent. -/
theorem cached_section_no_refetch (env : Option String) (backend : Request → Response)
    (state : PageState) (sec documentId : String) (v : Json)
    (hcached : state.sectionData.lookup sec = some v)
    (htruthy : jsTruthy v = true) :
    fetchSectionData env backend state sec documentId = (state, []) := by
  unfold fetchSectionData
  rw [hcached]
  simp [htruthy]

/-- Claim C5 witness: the theorem applied to a page state that already
caches the clauses section. -/
theorem cached_section_no_refetch_witness :
    fetchSectionData none
        (fun _ => { ok := true, status := 200, body := some (Json.obj []) })
        { sectionData := [("clauses", Json.obj [("clauses", Json.arr [])])] }
        "clauses" "doc1" =
      ({ sectionData := [("clauses", Json.obj [("clauses", Json.arr [])])] }, []) :=
  cached_section_no_refetch none
    (fun _ => { ok := true, status := 200, body := some (Json.obj []) })
    { sectionData := [("clauses", Json.obj [("clauses", Json.arr [])])] }
    "clauses" "doc1" (Json.obj [("clauses", Json.arr [])]) rfl rfl

/-- Claim C6: every submitted chat question with non-empty trimmed text
issues exactly one fresh chat request for the current question; the chat
history plays no part, so a question identical to a previous one is sent
to the backend again rather than served from any cache. -/
theorem chat_always_fresh (env : Option String) (d : String)
    (history : List String) (q : String) (hq : jsTrim q ≠ "") :
    handleSendMessage env (some d) history q =
      [legalAiService.chatWithDocument env { document_id := d, question := q }] := by
  unfold handleSendMessage
  simp [hq]

/-- Claim C6 witness: the theorem applied to a history already containing
the very question being asked again. -/
theorem chat_always_fresh_witness :
    handleSendMessage none (some "doc1")
        ["What is the payment deadline?"] "What is the payment deadline?" =
      [legalAiService.chatWithDocument none
        { document_id := "doc1", question := "What is the payment deadline?" }] :=
  chat_always_fresh none "doc1" ["What is the payment deadline?"]
    "What is the payment deadline?" (by decide)

/-- Claim C7: retrieval is deterministic; two retrieve calls with identical
query text over an unchanged index return the same chunk ids in the same
order, and the ranking the results are drawn from is sorted descending by
similarity with ties broken by chunk sequence index. -/
theorem retrieve_deterministic (emb : String → List Int) (index : List VectorRecord)
    (documentId : String) (k : Nat) (q1 q2 : String) (hq : q1 = q2) :
    retrieve emb index documentId q1 k = retrieve emb index documentId q2 k ∧
    (retrieveRecords emb index documentId q1).Sorted (rankRel (emb q1)) := by
  subst hq
  exact ⟨rfl, List.sorted_insertionSort _ _⟩

/-- A concrete deterministic embedder for the retrieval witness. -/
def embLen : String → List Int := fun s => [(s.length : Int)]

/-- A concrete index with a similarity tie between chunks 3 and 7 and one
record of another document. -/
def tieIndex : List VectorRecord :=
  [{ document_id := "d", chunk_id := 7, seq := 1, embedding := [2] },
   { document_id := "d", chunk_id := 3, seq := 0, embedding := [2] },
   { document_id := "other", chunk_id := 9, seq := 0, embedding := [5] }]

/-- Claim C7 witness: the theorem applied to the tie index, and the
resulting ranking evaluated, the tie broken by sequence index and the
other document excluded. -/
theorem retrieve_deterministic_witness :
    (retrieve embLen tieIndex "d" "ab" 2 = retrieve embLen tieIndex "d" "ab" 2 ∧
     (retrieveRecords embLen tieIndex "d" "ab").Sorted (rankRel (embLen "ab"))) ∧
    retrieve embLen tieIndex "d" "ab" 2 = [3, 7] :=
  ⟨retrieve_deterministic embLen tieIndex "d" 2 "ab" "ab" rfl, by decide⟩

/-- The backward boundary search only returns positions within the window
it was asked to examine. -/
theorem findBoundaryBack_bounds (src : List Char) :
    ∀ count p r, findBoundaryBack src count p = some r → r ≤ p ∧ p < r + count := by
  intro count
  induction count with
  | zero =>
      intro p r h
      exact Option.noConfusion h
  | succ n ih =>
      intro p r h
      simp only [findBoundaryBack] at h
      by_cases hb : isBoundaryAt src p = true
      · rw [if_pos hb] at h
        injection h with h
        omega
      · rw [if_neg hb] at h
        cases p with
        | zero => simp at h
        | succ q =>
            have := ih q r h
            omega

/-- The cut position of a non-final chunk lies strictly after the chunk
start and at most target_size characters after it. -/
theorem cutPoint_bounds (cfg : ChunkConfig) (src : List Char) (start : Nat)
    (ht : 0 < cfg.target_size) :
    start < cutPoint cfg src start ∧
    cutPoint cfg src start ≤ start + cfg.target_size := by
  unfold cutPoint
  split
  next p hfb =>
    have hp := findBoundaryBack_bounds src _ _ _ hfb
    have hmin : min cfg.boundary_search_window cfg.target_size ≤ cfg.target_size :=
      Nat.min_le_right _ _
    omega
  next hfb => omega

/-- Every chunk the chunking loop emits starts before it ends, ends within
the source text, spans at most target_size characters and carries exactly
the text slice of its offsets. -/
theorem chunkAux_bounds (cfg : ChunkConfig) (src : List Char)
    (ht : 0 < cfg.target_size) :
    ∀ fuel start seq c, c ∈ chunkAux cfg src start seq fuel →
      c.startOff < c.endOff ∧ c.endOff ≤ src.length ∧
      c.endOff - c.startOff ≤ cfg.target_size ∧
      c.text = (src.drop c.startOff).take (c.endOff - c.startOff) := by
  intro fuel
  induction fuel with
  | zero =>
      intro start seq c hc
      simp [chunkAux] at hc
  | succ n ih =>
      intro start seq c hc
      rw [chunkAux] at hc
      by_cases h1 : start < src.length
      · rw [if_pos h1] at hc
        by_cases h2 : src.length - start ≤ cfg.target_size
        · rw [if_pos h2] at hc
          simp only [List.mem_singleton] at hc
          subst hc
          simp only [mkChunk]
          exact ⟨h1, le_refl _, h2, trivial⟩
        · rw [if_neg h2] at hc
          simp only [List.mem_cons] at hc
          rcases hc with hc | hc
          · subst hc
            have hcut := cutPoint_bounds cfg src start ht
            simp only [mkChunk]
            refine ⟨?_, ?_, ?_, trivial⟩ <;> omega
          · exact ih _ _ _ hc
      · rw [if_neg h1] at hc
        simp at hc

/-- Claim C8: for every input text and every chunking configuration with a
positive target size, every chunk the Chunker produces has text of length
strictly greater than zero and at most target_size plus the boundary
search window, and no chunk exceeds the source text bounds. -/
theorem chunk_bounds (cfg : ChunkConfig) (text : List Char)
    (ht : 0 < cfg.target_size) (c : Chunk) (hc : c ∈ chunk cfg text) :
    0 < c.text.length ∧
    c.text.length ≤ cfg.target_size + cfg.boundary_search_window ∧
    c.endOff ≤ text.length := by
  obtain ⟨h1, h2, h3, h4⟩ := chunkAux_bounds cfg text ht (text.length + 1) 0 0 c hc
  have hlen : c.text.length = c.endOff - c.startOff := by
    rw [h4]
    simp only [List.length_take, List.length_drop]
    omega
  exact ⟨by omega, by omega, h2⟩

/-- The witness configuration: target size 5, overlap 2, window 2. -/
def chunkWitnessConfig : ChunkConfig :=
  { target_size := 5, overlap := 2, boundary_search_window := 2 }

/-- The witness chunk: the second chunk of the witness text, cut at the
sentence boundary and starting overlap characters before the previous
end. -/
def chunkWitnessChunk : Chunk :=
  { seq := 1, startOff := 2, endOff := 7, text := "c.def".data }

/-- Claim C8 witness: the theorem applied to a concrete text and
configuration at a concrete produced chunk. -/
theorem chunk_bounds_witness :
    0 < chunkWitnessConfig.target_size ∧
    chunkWitnessChunk ∈ chunk chunkWitnessConfig "abc.defgh".data ∧
    (0 < chunkWitnessChunk.text.length ∧
     chunkWitnessChunk.text.length ≤
       chunkWitnessConfig.target_size + chunkWitnessConfig.boundary_search_window ∧
     chunkWitnessChunk.endOff ≤ "abc.defgh".data.length) :=
  ⟨by decide, by decide,
   chunk_bounds chunkWitnessConfig "abc.defgh".data (by decide)
     chunkWitnessChunk (by decide)⟩

end LegalEase
